import Mathlib

/-!
Verification of the action pipeline in `src/main.ts`.

The program is a single pipeline: read and validate configuration inputs,
fetch repository metadata through an API client, wait a configurable delay,
and emit three outputs (`time`, `result`, `processed`).  A top-level handler
catches every failure, reports it once via `setFailed`, and sets no outputs.

We embed the pipeline as a pure function from an environment (the raw input
strings plus the outcomes of the external collaborators: the metadata fetch,
the delay primitive, and the wall clock) to the trace of observable effects
(log lines, `setOutput` calls, `setFailed` calls), mirroring `run`,
`getActionInputs`, `processWithGitHubAPI` and `setActionOutputs` from the
source.
-/

/-- Whitespace as recognised by the host language (JavaScript) for string
trimming and for `parseInt`: the common WhiteSpace and LineTerminator
characters. -/
def isJsWhitespace (c : Char) : Bool :=
  c = ' ' || c = '\t' || c = '\n' || c = '\x0b' || c = '\x0c' || c = '\r' ||
  c = '\u00A0' || c = '\uFEFF'

/-- JavaScript string trim: drop leading and trailing whitespace. -/
def jsTrim (s : String) : String :=
  ⟨((s.toList.dropWhile isJsWhitespace).reverse.dropWhile isJsWhitespace).reverse⟩

/-- JavaScript `parseInt(s, 10)`: skip leading whitespace, read an optional
sign, then the longest prefix of decimal digits; `none` models `NaN` (no
digits found).  Trailing non-digit characters are ignored. -/
def parseIntBase10 (s : String) : Option Int :=
  let cs := s.toList.dropWhile isJsWhitespace
  let signAndRest : Int × List Char :=
    match cs with
    | '-' :: r => (-1, r)
    | '+' :: r => (1, r)
    | r => (1, r)
  let digits := signAndRest.2.takeWhile (fun c => c.isDigit)
  if digits = [] then none
  else some (signAndRest.1 *
    (digits.foldl (fun acc c => acc * 10 + (c.toNat - '0'.toNat)) 0 : Nat))

/-- JavaScript `a || b` on strings: the empty string is the only falsy
string, so it picks the default. -/
def jsOr (s d : String) : String := if s = "" then d else s

/-- JavaScript `Boolean.prototype.toString`. -/
def jsBoolToString (b : Bool) : String := if b then "true" else "false"

/-- Interpolation `${n}` of the result of `parseInt`: `NaN` prints as
`"NaN"`, otherwise the decimal rendering of the integer. -/
def jsNumToString : Option Int → String
  | none => "NaN"
  | some n => toString n

/-- A JavaScript thrown value: either an `Error` object (message plus an
optional stack trace), or any other value (`nonErr`), kept opaque with an
identity so that "propagates unchanged" is expressible. -/
inductive Thrown where
  | errObj (message : String) (stack : Option String)
  | nonErr (id : Nat)
deriving DecidableEq, Repr

/-- Construction `new Error(m)`: an `Error` object carrying message `m`; the runtime
attaches a stack trace, modelled as some string derived from the message. -/
def jsNewError (m : String) : Thrown :=
  Thrown.errObj m (some ("Error: " ++ m))

/-- The repository metadata returned by `octokit.rest.repos.get`; only
`full_name` is consumed by the pipeline. -/
structure Repo where
  full_name : String
deriving DecidableEq, Repr

/-- The validated input record built by `getActionInputs`. -/
structure ActionInputs where
  token : String
  milliseconds : String
  exampleInput : String
deriving DecidableEq, Repr

/-- The output record built by `processWithGitHubAPI`. -/
structure ActionOutputs where
  time : String
  result : String
  processed : Bool
deriving DecidableEq, Repr

/-- One observable effect of a run: a diagnostic line on one of the four
channels, a `setOutput` call, a `setFailed` call, or the invocation of the
external delay primitive `wait` with its argument. -/
inductive LogEvent where
  | info (s : String)
  | warning (s : String)
  | error (s : String)
  | debug (s : String)
  | output (key value : String)
  | setFailed (s : String)
  | waitCall (ms : Option Int)
deriving DecidableEq, Repr

instance {ε α : Type} [DecidableEq ε] [DecidableEq α] : DecidableEq (Except ε α) :=
  fun a b =>
    match a, b with
    | Except.ok x, Except.ok y =>
        if h : x = y then isTrue (by rw [h])
        else isFalse fun hc => h (by cases hc; rfl)
    | Except.ok _, Except.error _ => isFalse fun hc => by cases hc
    | Except.error _, Except.ok _ => isFalse fun hc => by cases hc
    | Except.error x, Except.error y =>
        if h : x = y then isTrue (by rw [h])
        else isFalse fun hc => h (by cases hc; rfl)

/-- The environment of one invocation: the three raw configuration strings
as supplied by the invoking environment, and the outcomes of the external
collaborators — the metadata fetch, the delay primitive and the wall clock
(`new Date().toTimeString()`). -/
structure Env where
  rawToken : String
  rawMilliseconds : String
  rawExampleInput : String
  fetchResult : Except Thrown Repo
  waitResult : Except Thrown Unit
  now : String
deriving DecidableEq, Repr

/-- Model of `core.getInput("token")`: the raw input with surrounding whitespace
trimmed (the documented default behaviour of the input store). -/
def inputToken (env : Env) : String := jsTrim env.rawToken

/-- Model of `core.getInput("milliseconds")`. -/
def inputMilliseconds (env : Env) : String := jsTrim env.rawMilliseconds

/-- Model of `core.getInput("example-input")`. -/
def inputExample (env : Env) : String := jsTrim env.rawExampleInput

/-- Defaulting `getInput("milliseconds") || "1000"`: the defaulted milliseconds
string. -/
def defaultedMs (env : Env) : String := jsOr (inputMilliseconds env) "1000"

/-- Defaulting `getInput("example-input") || "default"`: the defaulted example
input. -/
def defaultedExample (env : Env) : String := jsOr (inputExample env) "default"

/-- Function `getActionInputs` from `src/main.ts`: reads the three inputs, applies
the `|| "1000"` and `|| "default"` defaults, rejects an empty token, then
rejects a milliseconds value whose base-10 parse is `NaN` or negative.
Returns the diagnostic lines emitted together with the result. -/
def getActionInputs (env : Env) : List LogEvent × Except Thrown ActionInputs :=
  let token := inputToken env
  let milliseconds := defaultedMs env
  let exampleInput := defaultedExample env
  if token = "" then
    ([], Except.error (jsNewError "Input required and not supplied: token"))
  else
    match parseIntBase10 milliseconds with
    | none =>
        ([], Except.error (jsNewError
          ("Invalid milliseconds value: " ++ milliseconds ++
           ". Must be a non-negative number.")))
    | some ms =>
        if ms < 0 then
          ([], Except.error (jsNewError
            ("Invalid milliseconds value: " ++ milliseconds ++
             ". Must be a non-negative number.")))
        else
          ([LogEvent.info ("Validated inputs: milliseconds=" ++ milliseconds ++
              ", example-input=" ++ exampleInput)],
           Except.ok ⟨token, milliseconds, exampleInput⟩)

/-- JavaScript `String.prototype.includes`: substring test. -/
def strIncludes (s sub : String) : Bool := decide (List.IsInfix sub.toList s.toList)

/-- The `catch` block of `processWithGitHubAPI`: classify an `Error` by
message text — rate limit first (with a warning), then `"Not Found"`, then
a generic re-wrap; a non-`Error` value is re-thrown unchanged. -/
def classifyCatch : Thrown → List LogEvent × Thrown
  | Thrown.errObj msg _ =>
      if strIncludes msg "rate limit" then
        ([LogEvent.warning "Rate limit encountered. Consider adding retry logic."],
         jsNewError "GitHub API rate limit exceeded. Please try again later.")
      else if strIncludes msg "Not Found" then
        ([], jsNewError "Repository not found or token lacks necessary permissions.")
      else
        ([], jsNewError ("GitHub API error: " ++ msg))
  | Thrown.nonErr v => ([], Thrown.nonErr v)

/-- Function `processWithGitHubAPI` from `src/main.ts`: fetch the repository
metadata, re-parse the milliseconds string, invoke `wait`, and build the
output record; any throw inside the `try` goes through `classifyCatch`. -/
def processWithGitHubAPI (env : Env) (inputs : ActionInputs) :
    List LogEvent × Except Thrown ActionOutputs :=
  let tryBody : List LogEvent × Except Thrown ActionOutputs :=
    let l1 := [LogEvent.info "Starting GitHub API processing..."]
    match env.fetchResult with
    | Except.error e => (l1, Except.error e)
    | Except.ok repo =>
        let ms := parseIntBase10 inputs.milliseconds
        let l2 := l1 ++
          [LogEvent.info ("Processing repository: " ++ repo.full_name),
           LogEvent.info ("Processing for " ++ jsNumToString ms ++ " milliseconds..."),
           LogEvent.waitCall ms]
        match env.waitResult with
        | Except.error e => (l2, Except.error e)
        | Except.ok _ =>
            (l2, Except.ok
              ⟨env.now,
               "Processed " ++ inputs.exampleInput ++ " for " ++ repo.full_name,
               true⟩)
  match tryBody with
  | (logs, Except.ok o) => (logs, Except.ok o)
  | (logs, Except.error e) =>
      ((logs ++ (classifyCatch e).1), Except.error (classifyCatch e).2)

/-- Function `setActionOutputs` from `src/main.ts`: the three `setOutput` calls in
order, then the success diagnostic. -/
def setActionOutputs (o : ActionOutputs) : List LogEvent :=
  [LogEvent.output "time" o.time,
   LogEvent.output "result" o.result,
   LogEvent.output "processed" (jsBoolToString o.processed),
   LogEvent.info ("Action completed successfully with result: " ++ o.result)]

/-- The `catch` block of `run`: an `Error` is reported with its message
(and its stack at debug level); any other thrown value becomes the generic
unexpected-error failure. -/
def runCatch : Thrown → List LogEvent
  | Thrown.errObj msg stack =>
      LogEvent.error ("Action failed: " ++ msg) ::
      ((match stack with
        | some st => [LogEvent.debug ("Stack trace: " ++ st)]
        | none => []) ++ [LogEvent.setFailed msg])
  | Thrown.nonErr _ =>
      [LogEvent.error "An unexpected error occurred",
       LogEvent.setFailed "An unexpected error occurred"]

/-- Function `run` from `src/main.ts`: the full pipeline with its single top-level
error handler. -/
def run (env : Env) : List LogEvent :=
  LogEvent.info "Starting TypeScript Action..." ::
  match getActionInputs env with
  | (logs, Except.error e) => logs ++ runCatch e
  | (logs, Except.ok inputs) =>
      logs ++
      match processWithGitHubAPI env inputs with
      | (plogs, Except.error e) => plogs ++ runCatch e
      | (plogs, Except.ok outputs) =>
          plogs ++ setActionOutputs outputs ++
          [LogEvent.info "TypeScript Action completed successfully!"]

/-- The `setOutput` calls of a trace, in order. -/
def outputsOf (t : List LogEvent) : List (String × String) :=
  t.filterMap fun e =>
    match e with
    | LogEvent.output k v => some (k, v)
    | _ => none

/-- The `setFailed` calls of a trace, in order. -/
def failedOf (t : List LogEvent) : List String :=
  t.filterMap fun e =>
    match e with
    | LogEvent.setFailed m => some m
    | _ => none

/-- The warning lines of a trace, in order. -/
def warningsOf (t : List LogEvent) : List String :=
  t.filterMap fun e =>
    match e with
    | LogEvent.warning m => some m
    | _ => none

/-- The values set for a given output key, in order. -/
def outputVals (t : List LogEvent) (k : String) : List String :=
  (outputsOf t).filterMap fun p => if p.1 = k then some p.2 else none

/-- The message reported by the top-level handler for a thrown value. -/
def catchMessage : Thrown → String
  | Thrown.errObj m _ => m
  | Thrown.nonErr _ => "An unexpected error occurred"

@[simp] lemma outputsOf_nil : outputsOf [] = [] := rfl

@[simp] lemma failedOf_nil : failedOf [] = [] := rfl

@[simp] lemma warningsOf_nil : warningsOf [] = [] := rfl

@[simp] lemma outputsOf_append (a b : List LogEvent) :
    outputsOf (a ++ b) = outputsOf a ++ outputsOf b := by
  simp [outputsOf]

@[simp] lemma failedOf_append (a b : List LogEvent) :
    failedOf (a ++ b) = failedOf a ++ failedOf b := by
  simp [failedOf]

@[simp] lemma warningsOf_append (a b : List LogEvent) :
    warningsOf (a ++ b) = warningsOf a ++ warningsOf b := by
  simp [warningsOf]

@[simp] lemma outputsOf_info (s : String) (t : List LogEvent) :
    outputsOf (LogEvent.info s :: t) = outputsOf t := rfl

@[simp] lemma outputsOf_warning (s : String) (t : List LogEvent) :
    outputsOf (LogEvent.warning s :: t) = outputsOf t := rfl

@[simp] lemma outputsOf_error (s : String) (t : List LogEvent) :
    outputsOf (LogEvent.error s :: t) = outputsOf t := rfl

@[simp] lemma outputsOf_debug (s : String) (t : List LogEvent) :
    outputsOf (LogEvent.debug s :: t) = outputsOf t := rfl

@[simp] lemma outputsOf_output (k v : String) (t : List LogEvent) :
    outputsOf (LogEvent.output k v :: t) = (k, v) :: outputsOf t := rfl

@[simp] lemma outputsOf_setFailed (s : String) (t : List LogEvent) :
    outputsOf (LogEvent.setFailed s :: t) = outputsOf t := rfl

@[simp] lemma outputsOf_waitCall (m : Option Int) (t : List LogEvent) :
    outputsOf (LogEvent.waitCall m :: t) = outputsOf t := rfl

@[simp] lemma failedOf_info (s : String) (t : List LogEvent) :
    failedOf (LogEvent.info s :: t) = failedOf t := rfl

@[simp] lemma failedOf_warning (s : String) (t : List LogEvent) :
    failedOf (LogEvent.warning s :: t) = failedOf t := rfl

@[simp] lemma failedOf_error (s : String) (t : List LogEvent) :
    failedOf (LogEvent.error s :: t) = failedOf t := rfl

@[simp] lemma failedOf_debug (s : String) (t : List LogEvent) :
    failedOf (LogEvent.debug s :: t) = failedOf t := rfl

@[simp] lemma failedOf_output (k v : String) (t : List LogEvent) :
    failedOf (LogEvent.output k v :: t) = failedOf t := rfl

@[simp] lemma failedOf_setFailed (s : String) (t : List LogEvent) :
    failedOf (LogEvent.setFailed s :: t) = s :: failedOf t := rfl

@[simp] lemma failedOf_waitCall (m : Option Int) (t : List LogEvent) :
    failedOf (LogEvent.waitCall m :: t) = failedOf t := rfl

@[simp] lemma warningsOf_info (s : String) (t : List LogEvent) :
    warningsOf (LogEvent.info s :: t) = warningsOf t := rfl

@[simp] lemma warningsOf_warning (s : String) (t : List LogEvent) :
    warningsOf (LogEvent.warning s :: t) = s :: warningsOf t := rfl

@[simp] lemma warningsOf_error (s : String) (t : List LogEvent) :
    warningsOf (LogEvent.error s :: t) = warningsOf t := rfl

@[simp] lemma warningsOf_debug (s : String) (t : List LogEvent) :
    warningsOf (LogEvent.debug s :: t) = warningsOf t := rfl

@[simp] lemma warningsOf_output (k v : String) (t : List LogEvent) :
    warningsOf (LogEvent.output k v :: t) = warningsOf t := rfl

@[simp] lemma warningsOf_setFailed (s : String) (t : List LogEvent) :
    warningsOf (LogEvent.setFailed s :: t) = warningsOf t := rfl

@[simp] lemma warningsOf_waitCall (m : Option Int) (t : List LogEvent) :
    warningsOf (LogEvent.waitCall m :: t) = warningsOf t := rfl

lemma failedOf_runCatch (e : Thrown) : failedOf (runCatch e) = [catchMessage e] := by
  cases e with
  | errObj m st => cases st <;> simp [runCatch, catchMessage]
  | nonErr v => simp [runCatch, catchMessage]

lemma outputsOf_runCatch (e : Thrown) : outputsOf (runCatch e) = [] := by
  cases e with
  | errObj m st => cases st <;> simp [runCatch]
  | nonErr v => simp [runCatch]

lemma warningsOf_runCatch (e : Thrown) : warningsOf (runCatch e) = [] := by
  cases e with
  | errObj m st => cases st <;> simp [runCatch]
  | nonErr v => simp [runCatch]

lemma waitCall_notMem_runCatch (e : Thrown) (m : Option Int) :
    LogEvent.waitCall m ∉ runCatch e := by
  cases e with
  | errObj s st => cases st <;> simp [runCatch]
  | nonErr v => simp [runCatch]

lemma outputsOf_setActionOutputs (o : ActionOutputs) :
    outputsOf (setActionOutputs o) =
      [("time", o.time), ("result", o.result), ("processed", jsBoolToString o.processed)] := by
  simp [setActionOutputs]

lemma failedOf_setActionOutputs (o : ActionOutputs) :
    failedOf (setActionOutputs o) = [] := by
  simp [setActionOutputs]

lemma waitCall_notMem_setActionOutputs (o : ActionOutputs) (m : Option Int) :
    LogEvent.waitCall m ∉ setActionOutputs o := by
  simp [setActionOutputs]

lemma getActionInputs_token_err (env : Env) (h : inputToken env = "") :
    getActionInputs env =
      ([], Except.error (jsNewError "Input required and not supplied: token")) := by
  simp [getActionInputs, h]

lemma getActionInputs_ms_err_none (env : Env) (ht : inputToken env ≠ "")
    (h : parseIntBase10 (defaultedMs env) = none) :
    getActionInputs env =
      ([], Except.error (jsNewError
        ("Invalid milliseconds value: " ++ defaultedMs env ++
         ". Must be a non-negative number."))) := by
  simp [getActionInputs, ht, h]

lemma getActionInputs_ms_err_neg (env : Env) (n : Int) (ht : inputToken env ≠ "")
    (h : parseIntBase10 (defaultedMs env) = some n) (hn : n < 0) :
    getActionInputs env =
      ([], Except.error (jsNewError
        ("Invalid milliseconds value: " ++ defaultedMs env ++
         ". Must be a non-negative number."))) := by
  simp [getActionInputs, ht, h, hn]

lemma getActionInputs_ok (env : Env) (n : Int) (ht : inputToken env ≠ "")
    (h : parseIntBase10 (defaultedMs env) = some n) (hn : ¬ n < 0) :
    getActionInputs env =
      ([LogEvent.info ("Validated inputs: milliseconds=" ++ defaultedMs env ++
          ", example-input=" ++ defaultedExample env)],
       Except.ok ⟨inputToken env, defaultedMs env, defaultedExample env⟩) := by
  simp [getActionInputs, ht, h, hn]

lemma getActionInputs_ok_inv (env : Env) (i : ActionInputs)
    (h : (getActionInputs env).2 = Except.ok i) :
    i.token = inputToken env ∧ i.milliseconds = defaultedMs env ∧
    i.exampleInput = defaultedExample env ∧
    ∃ n : Int, parseIntBase10 (defaultedMs env) = some n ∧ 0 ≤ n := by
  by_cases ht : inputToken env = ""
  · rw [getActionInputs_token_err env ht] at h
    cases h
  · rcases hp : parseIntBase10 (defaultedMs env) with _ | n
    · rw [getActionInputs_ms_err_none env ht hp] at h
      cases h
    · by_cases hn : n < 0
      · rw [getActionInputs_ms_err_neg env n ht hp hn] at h
        cases h
      · rw [getActionInputs_ok env n ht hp hn] at h
        cases h
        exact ⟨rfl, rfl, rfl, n, rfl, not_lt.mp hn⟩

lemma process_fetch_err (env : Env) (inputs : ActionInputs) (e : Thrown)
    (hf : env.fetchResult = Except.error e) :
    processWithGitHubAPI env inputs =
      ([LogEvent.info "Starting GitHub API processing..."] ++ (classifyCatch e).1,
       Except.error (classifyCatch e).2) := by
  simp [processWithGitHubAPI, hf]

lemma process_wait_err (env : Env) (inputs : ActionInputs) (repo : Repo) (e : Thrown)
    (hf : env.fetchResult = Except.ok repo)
    (hw : env.waitResult = Except.error e) :
    processWithGitHubAPI env inputs =
      ([LogEvent.info "Starting GitHub API processing...",
        LogEvent.info ("Processing repository: " ++ repo.full_name),
        LogEvent.info ("Processing for " ++
          jsNumToString (parseIntBase10 inputs.milliseconds) ++ " milliseconds..."),
        LogEvent.waitCall (parseIntBase10 inputs.milliseconds)] ++ (classifyCatch e).1,
       Except.error (classifyCatch e).2) := by
  simp [processWithGitHubAPI, hf, hw]

lemma process_ok (env : Env) (inputs : ActionInputs) (repo : Repo)
    (hf : env.fetchResult = Except.ok repo)
    (hw : env.waitResult = Except.ok ()) :
    processWithGitHubAPI env inputs =
      ([LogEvent.info "Starting GitHub API processing...",
        LogEvent.info ("Processing repository: " ++ repo.full_name),
        LogEvent.info ("Processing for " ++
          jsNumToString (parseIntBase10 inputs.milliseconds) ++ " milliseconds..."),
        LogEvent.waitCall (parseIntBase10 inputs.milliseconds)],
       Except.ok ⟨env.now,
         "Processed " ++ inputs.exampleInput ++ " for " ++ repo.full_name,
         true⟩) := by
  simp [processWithGitHubAPI, hf, hw]

lemma run_input_err (env : Env) (e : Thrown)
    (h : getActionInputs env = ([], Except.error e)) :
    run env = LogEvent.info "Starting TypeScript Action..." :: runCatch e := by
  simp only [run, h, List.nil_append]

lemma run_proc_err (env : Env) (inputs : ActionInputs) (logs plogs : List LogEvent)
    (e : Thrown)
    (h1 : getActionInputs env = (logs, Except.ok inputs))
    (h2 : processWithGitHubAPI env inputs = (plogs, Except.error e)) :
    run env = LogEvent.info "Starting TypeScript Action..." ::
      (logs ++ (plogs ++ runCatch e)) := by
  simp only [run, h1, h2]

lemma run_success (env : Env) (inputs : ActionInputs) (logs plogs : List LogEvent)
    (o : ActionOutputs)
    (h1 : getActionInputs env = (logs, Except.ok inputs))
    (h2 : processWithGitHubAPI env inputs = (plogs, Except.ok o)) :
    run env = LogEvent.info "Starting TypeScript Action..." ::
      (logs ++ (plogs ++ setActionOutputs o ++
        [LogEvent.info "TypeScript Action completed successfully!"])) := by
  simp only [run, h1, h2]

lemma classifyCatch_fst_outputs (e : Thrown) : outputsOf (classifyCatch e).1 = [] := by
  cases e with
  | errObj m st =>
      by_cases h1 : strIncludes m "rate limit" <;>
        by_cases h2 : strIncludes m "Not Found" <;> simp [classifyCatch, h1, h2]
  | nonErr v => simp [classifyCatch]

lemma classifyCatch_fst_failed (e : Thrown) : failedOf (classifyCatch e).1 = [] := by
  cases e with
  | errObj m st =>
      by_cases h1 : strIncludes m "rate limit" <;>
        by_cases h2 : strIncludes m "Not Found" <;> simp [classifyCatch, h1, h2]
  | nonErr v => simp [classifyCatch]

lemma waitCall_notMem_classifyCatch_fst (e : Thrown) (m : Option Int) :
    LogEvent.waitCall m ∉ (classifyCatch e).1 := by
  cases e with
  | errObj s st =>
      by_cases h1 : strIncludes s "rate limit" <;>
        by_cases h2 : strIncludes s "Not Found" <;> simp [classifyCatch, h1, h2]
  | nonErr v => simp [classifyCatch]

lemma catchMessage_jsNewError (m : String) : catchMessage (jsNewError m) = m := rfl

lemma jsBoolToString_true : jsBoolToString true = "true" := rfl

/-- C1: for every run, the three outputs (`time`, `result`, `processed`) are
set as a group only on the success path (with `processed` serialized as
`"true"`), and on any failure — input validation, fetch or delay — zero
outputs are set and exactly one `setFailed` signal is emitted. -/
theorem C1_outputs_atomic_single_failure (env : Env) :
    (∃ r : String,
       outputsOf (run env) =
         [("time", env.now), ("result", r), ("processed", "true")] ∧
       failedOf (run env) = []) ∨
    (outputsOf (run env) = [] ∧ (failedOf (run env)).length = 1) := by
  by_cases ht : inputToken env = ""
  · right
    rw [run_input_err env _ (getActionInputs_token_err env ht)]
    simp [outputsOf_runCatch, failedOf_runCatch]
  · rcases hp : parseIntBase10 (defaultedMs env) with _ | n
    · right
      rw [run_input_err env _ (getActionInputs_ms_err_none env ht hp)]
      simp [outputsOf_runCatch, failedOf_runCatch]
    · by_cases hn : n < 0
      · right
        rw [run_input_err env _ (getActionInputs_ms_err_neg env n ht hp hn)]
        simp [outputsOf_runCatch, failedOf_runCatch]
      · have hg := getActionInputs_ok env n ht hp hn
        rcases hf : env.fetchResult with e | repo
        · right
          rw [run_proc_err env _ _ _ _ hg (process_fetch_err env _ e hf)]
          simp [outputsOf_runCatch, failedOf_runCatch,
            classifyCatch_fst_outputs, classifyCatch_fst_failed]
        · rcases hw : env.waitResult with e | u
          · right
            rw [run_proc_err env _ _ _ _ hg (process_wait_err env _ repo e hf hw)]
            simp [outputsOf_runCatch, failedOf_runCatch,
              classifyCatch_fst_outputs, classifyCatch_fst_failed]
          · left
            cases u
            rw [run_success env _ _ _ _ hg (process_ok env _ repo hf hw)]
            refine ⟨"Processed " ++ defaultedExample env ++ " for " ++ repo.full_name, ?_, ?_⟩ <;>
              simp [outputsOf_setActionOutputs, failedOf_setActionOutputs, jsBoolToString]

lemma jsTrim_all_whitespace (s : String) (h : s.toList.all isJsWhitespace = true) :
    jsTrim s = "" := by
  have h1 : s.toList.dropWhile isJsWhitespace = [] :=
    List.dropWhile_eq_nil_iff.mpr (by simpa [List.all_eq_true] using h)
  unfold jsTrim
  rw [h1]
  rfl

/-- C3: for every token input that is empty or consists only of whitespace,
the run fails with the message "Input required and not supplied: token" and
no outputs are set. -/
theorem C3_blank_token_fails (env : Env)
    (h : env.rawToken.toList.all isJsWhitespace = true) :
    failedOf (run env) = ["Input required and not supplied: token"] ∧
    outputsOf (run env) = [] := by
  have ht : inputToken env = "" := jsTrim_all_whitespace _ h
  rw [run_input_err env _ (getActionInputs_token_err env ht)]
  simp [failedOf_runCatch, outputsOf_runCatch, catchMessage_jsNewError]

/-- Witness for C3 at the concrete whitespace-only token `"  "`. -/
theorem C3_blank_token_fails_witness :
    failedOf (run ⟨"  ", "500", "x", Except.ok ⟨"owner/repo"⟩, Except.ok (), "12:00:00"⟩) =
      ["Input required and not supplied: token"] ∧
    outputsOf (run ⟨"  ", "500", "x", Except.ok ⟨"owner/repo"⟩, Except.ok (), "12:00:00"⟩) =
      [] :=
  C3_blank_token_fails _ (by decide)

/-- C9: token validation precedes milliseconds validation — for every input
record whose token is empty and whose milliseconds is also invalid, the
reported failure message is the token message, never the milliseconds one. -/
theorem C9_token_validated_first (env : Env)
    (ht : inputToken env = "")
    (_hbad : parseIntBase10 (defaultedMs env) = none ∨
      ∃ n : Int, parseIntBase10 (defaultedMs env) = some n ∧ n < 0) :
    failedOf (run env) = ["Input required and not supplied: token"] := by
  rw [run_input_err env _ (getActionInputs_token_err env ht)]
  simp [failedOf_runCatch, catchMessage_jsNewError]

/-- Witness for C9: empty token together with the unparsable milliseconds
value `"abc"`. -/
theorem C9_token_validated_first_witness :
    failedOf (run ⟨"", "abc", "x", Except.ok ⟨"owner/repo"⟩, Except.ok (), "12:00:00"⟩) =
      ["Input required and not supplied: token"] :=
  C9_token_validated_first _ (by decide) (Or.inl (by decide))

/-- C4: for every milliseconds input that, after defaulting, fails base-10
integer parsing or parses to a negative value (the token being present),
the run fails with "Invalid milliseconds value: {raw}. Must be a
non-negative number." where {raw} is the original un-defaulted input
string, and no outputs are set. -/
theorem C4_invalid_milliseconds_fails (env : Env)
    (ht : inputToken env ≠ "")
    (hbad : parseIntBase10 (defaultedMs env) = none ∨
      ∃ n : Int, parseIntBase10 (defaultedMs env) = some n ∧ n < 0) :
    failedOf (run env) =
      ["Invalid milliseconds value: " ++ inputMilliseconds env ++
       ". Must be a non-negative number."] ∧
    outputsOf (run env) = [] := by
  have h1000 : parseIntBase10 "1000" = some 1000 := by decide
  have hraw : inputMilliseconds env ≠ "" := by
    intro h0
    have hd : defaultedMs env = "1000" := by simp [defaultedMs, jsOr, h0]
    rcases hbad with hb | ⟨n, hb, hn⟩
    · rw [hd, h1000] at hb
      cases hb
    · rw [hd, h1000] at hb
      cases hb
      exact absurd hn (by decide)
  have hdm : defaultedMs env = inputMilliseconds env := by
    simp [defaultedMs, jsOr, hraw]
  rcases hbad with hb | ⟨n, hb, hn⟩
  · rw [run_input_err env _ (getActionInputs_ms_err_none env ht hb), hdm]
    simp [failedOf_runCatch, outputsOf_runCatch, catchMessage_jsNewError]
  · rw [run_input_err env _ (getActionInputs_ms_err_neg env n ht hb hn), hdm]
    simp [failedOf_runCatch, outputsOf_runCatch, catchMessage_jsNewError]

/-- Witness for C4 at the concrete negative milliseconds value `"-500"`. -/
theorem C4_invalid_milliseconds_fails_witness :
    failedOf (run ⟨"tok", "-500", "x", Except.ok ⟨"owner/repo"⟩, Except.ok (), "12:00:00"⟩) =
      ["Invalid milliseconds value: -500. Must be a non-negative number."] ∧
    outputsOf (run ⟨"tok", "-500", "x", Except.ok ⟨"owner/repo"⟩, Except.ok (), "12:00:00"⟩) =
      [] :=
  C4_invalid_milliseconds_fails _ (by decide) (Or.inr ⟨-500, by decide, by decide⟩)

lemma getActionInputs_fst_cases (env : Env) :
    (getActionInputs env).1 = [] ∨ ∃ s, (getActionInputs env).1 = [LogEvent.info s] := by
  by_cases ht : inputToken env = ""
  · rw [getActionInputs_token_err env ht]
    left; rfl
  · rcases hp : parseIntBase10 (defaultedMs env) with _ | n
    · rw [getActionInputs_ms_err_none env ht hp]
      left; rfl
    · by_cases hn : n < 0
      · rw [getActionInputs_ms_err_neg env n ht hp hn]
        left; rfl
      · rw [getActionInputs_ok env n ht hp hn]
        right; exact ⟨_, rfl⟩

lemma getActionInputs_fst_channels (env : Env) :
    outputsOf (getActionInputs env).1 = [] ∧
    failedOf (getActionInputs env).1 = [] ∧
    warningsOf (getActionInputs env).1 = [] := by
  rcases getActionInputs_fst_cases env with h | ⟨s, h⟩ <;> rw [h] <;> simp

lemma getActionInputs_pair_of_ok (env : Env) (inputs : ActionInputs)
    (hin : (getActionInputs env).2 = Except.ok inputs) :
    getActionInputs env = ((getActionInputs env).1, Except.ok inputs) := by
  rw [← hin]

/-- C2: when the metadata fetch rejects with an error object, classification
inspects the message text in priority order — a rate-limit substring wins
(emitting a warning and failing with the normalized rate-limit message, even
when "Not Found" is also present), otherwise "Not Found" gives the
permissions message, otherwise the run fails with "GitHub API error:
{original message}". -/
theorem C2_fetch_error_classification (env : Env) (msg : String)
    (st : Option String) (inputs : ActionInputs)
    (hin : (getActionInputs env).2 = Except.ok inputs)
    (hf : env.fetchResult = Except.error (Thrown.errObj msg st)) :
    (strIncludes msg "rate limit" = true →
       failedOf (run env) =
         ["GitHub API rate limit exceeded. Please try again later."] ∧
       warningsOf (run env) =
         ["Rate limit encountered. Consider adding retry logic."]) ∧
    (strIncludes msg "rate limit" = false → strIncludes msg "Not Found" = true →
       failedOf (run env) =
         ["Repository not found or token lacks necessary permissions."]) ∧
    (strIncludes msg "rate limit" = false → strIncludes msg "Not Found" = false →
       failedOf (run env) = ["GitHub API error: " ++ msg]) := by
  have hg := getActionInputs_pair_of_ok env inputs hin
  obtain ⟨hco, hcf, hcw⟩ := getActionInputs_fst_channels env
  rw [run_proc_err env inputs _ _ _ hg (process_fetch_err env inputs _ hf)]
  refine ⟨fun hrl => ?_, fun hrl hnf => ?_, fun hrl hnf => ?_⟩
  · constructor <;>
      simp [classifyCatch, hrl, hcf, hcw, failedOf_runCatch, warningsOf_runCatch,
        catchMessage_jsNewError]
  · simp [classifyCatch, hrl, hnf, hcf, failedOf_runCatch, catchMessage_jsNewError]
  · simp [classifyCatch, hrl, hnf, hcf, failedOf_runCatch, catchMessage_jsNewError]

/-- Witness for C2: a fetch error whose message contains both the rate-limit
substring and "Not Found"; the rate-limit classification wins. -/
theorem C2_fetch_error_classification_witness :
    failedOf (run ⟨"tok", "500", "x",
        Except.error (Thrown.errObj "rate limit hit: Not Found" none),
        Except.ok (), "12:00:00"⟩) =
      ["GitHub API rate limit exceeded. Please try again later."] ∧
    warningsOf (run ⟨"tok", "500", "x",
        Except.error (Thrown.errObj "rate limit hit: Not Found" none),
        Except.ok (), "12:00:00"⟩) =
      ["Rate limit encountered. Consider adding retry logic."] :=
  (C2_fetch_error_classification _ "rate limit hit: Not Found" none
    ⟨"tok", "500", "x"⟩ (by decide) rfl).1 (by decide)

/-- C7: a thrown value that is not an error object propagates unchanged out
of the fetch stage, and the top-level handler converts it into the failure
message "An unexpected error occurred", reported exactly once. -/
theorem C7_non_error_value_propagates (env : Env) (v : Nat)
    (inputs : ActionInputs)
    (hin : (getActionInputs env).2 = Except.ok inputs)
    (hf : env.fetchResult = Except.error (Thrown.nonErr v)) :
    (processWithGitHubAPI env inputs).2 = Except.error (Thrown.nonErr v) ∧
    failedOf (run env) = ["An unexpected error occurred"] := by
  have hg := getActionInputs_pair_of_ok env inputs hin
  obtain ⟨hco, hcf, hcw⟩ := getActionInputs_fst_channels env
  constructor
  · rw [process_fetch_err env inputs _ hf]
    rfl
  · rw [run_proc_err env inputs _ _ _ hg (process_fetch_err env inputs _ hf)]
    simp [classifyCatch, hcf, failedOf_runCatch, catchMessage]

/-- Witness for C7 at a concrete non-error thrown value. -/
theorem C7_non_error_value_propagates_witness :
    (processWithGitHubAPI
        ⟨"tok", "500", "x", Except.error (Thrown.nonErr 7), Except.ok (), "12:00:00"⟩
        ⟨"tok", "500", "x"⟩).2 =
      Except.error (Thrown.nonErr 7) ∧
    failedOf (run ⟨"tok", "500", "x", Except.error (Thrown.nonErr 7),
        Except.ok (), "12:00:00"⟩) =
      ["An unexpected error occurred"] :=
  C7_non_error_value_propagates _ 7 ⟨"tok", "500", "x"⟩ (by decide) rfl

/-- C5: for every successful run where the metadata fetch resolves with full
name F and the resolved example input is E, the outputs are exactly the
timestamp, `result = "Processed {E} for {F}"` and `processed = "true"`, with
no failure signal. -/
theorem C5_success_result_and_processed (env : Env) (inputs : ActionInputs)
    (repo : Repo)
    (hin : (getActionInputs env).2 = Except.ok inputs)
    (hf : env.fetchResult = Except.ok repo)
    (hw : env.waitResult = Except.ok ()) :
    outputsOf (run env) =
      [("time", env.now),
       ("result", "Processed " ++ inputs.exampleInput ++ " for " ++ repo.full_name),
       ("processed", "true")] ∧
    failedOf (run env) = [] := by
  have hg := getActionInputs_pair_of_ok env inputs hin
  obtain ⟨hco, hcf, hcw⟩ := getActionInputs_fst_channels env
  rw [run_success env inputs _ _ _ hg (process_ok env inputs repo hf hw)]
  constructor <;>
    simp [outputsOf_setActionOutputs, failedOf_setActionOutputs, hco, hcf,
      jsBoolToString]

/-- Witness for C5 with `example-input = "test-input"` and fetch resolving
to full name `"owner/repo"`. -/
theorem C5_success_result_and_processed_witness :
    outputsOf (run ⟨"tok", "500", "test-input", Except.ok ⟨"owner/repo"⟩,
        Except.ok (), "12:00:00"⟩) =
      [("time", "12:00:00"),
       ("result", "Processed test-input for owner/repo"),
       ("processed", "true")] ∧
    failedOf (run ⟨"tok", "500", "test-input", Except.ok ⟨"owner/repo"⟩,
        Except.ok (), "12:00:00"⟩) = [] :=
  C5_success_result_and_processed _ ⟨"tok", "500", "test-input"⟩ ⟨"owner/repo"⟩
    (by decide) rfl rfl

/-- C6: an absent or empty milliseconds input defaults to "1000" and an
absent or empty example-input defaults to "default", so a run with empty
example-input and fetch full name "owner/repo" succeeds with result
"Processed default for owner/repo". -/
theorem C6_defaults_applied (env : Env) (repo : Repo)
    (hms : inputMilliseconds env = "")
    (hex : inputExample env = "")
    (ht : inputToken env ≠ "")
    (hf : env.fetchResult = Except.ok repo)
    (hfn : repo.full_name = "owner/repo")
    (hw : env.waitResult = Except.ok ()) :
    (getActionInputs env).2 =
      Except.ok ⟨inputToken env, "1000", "default"⟩ ∧
    outputsOf (run env) =
      [("time", env.now), ("result", "Processed default for owner/repo"),
       ("processed", "true")] ∧
    failedOf (run env) = [] := by
  have hdm : defaultedMs env = "1000" := by simp [defaultedMs, jsOr, hms]
  have hde : defaultedExample env = "default" := by
    simp [defaultedExample, jsOr, hex]
  have hp : parseIntBase10 (defaultedMs env) = some 1000 := by
    rw [hdm]; decide
  have hg := getActionInputs_ok env 1000 ht hp (by decide)
  rw [hdm, hde] at hg
  refine ⟨?_, ?_, ?_⟩
  · rw [hg]
  · rw [run_success env _ _ _ _ hg (process_ok env _ repo hf hw)]
    simp [outputsOf_setActionOutputs, jsBoolToString, hfn]
  · rw [run_success env _ _ _ _ hg (process_ok env _ repo hf hw)]
    simp [failedOf_setActionOutputs]

/-- Witness for C6: empty milliseconds and example-input with fetch full
name `"owner/repo"`. -/
theorem C6_defaults_applied_witness :
    (getActionInputs ⟨"tok", "", "", Except.ok ⟨"owner/repo"⟩,
        Except.ok (), "12:00:00"⟩).2 =
      Except.ok ⟨"tok", "1000", "default"⟩ ∧
    outputsOf (run ⟨"tok", "", "", Except.ok ⟨"owner/repo"⟩,
        Except.ok (), "12:00:00"⟩) =
      [("time", "12:00:00"), ("result", "Processed default for owner/repo"),
       ("processed", "true")] ∧
    failedOf (run ⟨"tok", "", "", Except.ok ⟨"owner/repo"⟩,
        Except.ok (), "12:00:00"⟩) = [] :=
  C6_defaults_applied _ ⟨"owner/repo"⟩ (by decide) (by decide) (by decide) rfl
    rfl rfl

/-- C10: whenever the delay stage is reached, `wait` is invoked with a
non-negative integer: the value passed equals the base-10 parse of the
defaulted milliseconds string that input validation already checked. -/
theorem C10_wait_arg_validated (env : Env) (m : Option Int)
    (h : LogEvent.waitCall m ∈ run env) :
    ∃ n : Int, m = some n ∧ 0 ≤ n ∧
      parseIntBase10 (defaultedMs env) = some n := by
  by_cases ht : inputToken env = ""
  · rw [run_input_err env _ (getActionInputs_token_err env ht)] at h
    rcases List.mem_cons.mp h with h0 | h0
    · cases h0
    · exact absurd h0 (waitCall_notMem_runCatch _ m)
  · rcases hp : parseIntBase10 (defaultedMs env) with _ | n
    · rw [run_input_err env _ (getActionInputs_ms_err_none env ht hp)] at h
      rcases List.mem_cons.mp h with h0 | h0
      · cases h0
      · exact absurd h0 (waitCall_notMem_runCatch _ m)
    · by_cases hn : n < 0
      · rw [run_input_err env _ (getActionInputs_ms_err_neg env n ht hp hn)] at h
        rcases List.mem_cons.mp h with h0 | h0
        · cases h0
        · exact absurd h0 (waitCall_notMem_runCatch _ m)
      · have hg := getActionInputs_ok env n ht hp hn
        rcases hf : env.fetchResult with e | repo
        · rw [run_proc_err env _ _ _ _ hg (process_fetch_err env _ e hf)] at h
          simp [waitCall_notMem_runCatch, waitCall_notMem_classifyCatch_fst] at h
        · rcases hw : env.waitResult with e | u
          · rw [run_proc_err env _ _ _ _ hg
              (process_wait_err env _ repo e hf hw)] at h
            simp [waitCall_notMem_runCatch,
              waitCall_notMem_classifyCatch_fst, hp] at h
            exact ⟨n, h, not_lt.mp hn, rfl⟩
          · cases u
            rw [run_success env _ _ _ _ hg (process_ok env _ repo hf hw)] at h
            simp [setActionOutputs, hp] at h
            exact ⟨n, h, not_lt.mp hn, rfl⟩

/-- Witness for C10 at a concrete successful run with milliseconds 500. -/
theorem C10_wait_arg_validated_witness :
    ∃ n : Int, (some 500 : Option Int) = some n ∧ 0 ≤ n ∧
      parseIntBase10 (defaultedMs ⟨"tok", "500", "x", Except.ok ⟨"owner/repo"⟩,
        Except.ok (), "12:00:00"⟩) = some n :=
  C10_wait_arg_validated
    ⟨"tok", "500", "x", Except.ok ⟨"owner/repo"⟩, Except.ok (), "12:00:00"⟩
    (some 500) (by decide)

/-- C8: two runs with identical configuration inputs and identical
(deterministic) fetch and delay outcomes produce identical `result` and
`processed` output values; only the `time` output may differ. -/
theorem C8_result_processed_deterministic (env1 env2 : Env)
    (h1 : env1.rawToken = env2.rawToken)
    (h2 : env1.rawMilliseconds = env2.rawMilliseconds)
    (h3 : env1.rawExampleInput = env2.rawExampleInput)
    (h4 : env1.fetchResult = env2.fetchResult)
    (h5 : env1.waitResult = env2.waitResult) :
    outputVals (run env1) "result" = outputVals (run env2) "result" ∧
    outputVals (run env1) "processed" = outputVals (run env2) "processed" := by
  obtain ⟨t1, m1, x1, f1, w1, n1⟩ := env1
  obtain ⟨t2, m2, x2, f2, w2, n2⟩ := env2
  dsimp only at h1 h2 h3 h4 h5
  subst h1; subst h2; subst h3; subst h4; subst h5
  by_cases ht : inputToken ⟨t1, m1, x1, f1, w1, n1⟩ = ""
  · rw [run_input_err _ _ (getActionInputs_token_err ⟨t1, m1, x1, f1, w1, n1⟩ ht),
        run_input_err _ _ (getActionInputs_token_err ⟨t1, m1, x1, f1, w1, n2⟩ ht)]
    constructor <;> simp [outputVals, outputsOf_runCatch]
  · rcases hp : parseIntBase10 (defaultedMs ⟨t1, m1, x1, f1, w1, n1⟩) with _ | n
    · rw [run_input_err _ _
            (getActionInputs_ms_err_none ⟨t1, m1, x1, f1, w1, n1⟩ ht hp),
          run_input_err _ _
            (getActionInputs_ms_err_none ⟨t1, m1, x1, f1, w1, n2⟩ ht hp)]
      constructor <;> simp [outputVals, outputsOf_runCatch]
    · by_cases hn : n < 0
      · rw [run_input_err _ _
              (getActionInputs_ms_err_neg ⟨t1, m1, x1, f1, w1, n1⟩ n ht hp hn),
            run_input_err _ _
              (getActionInputs_ms_err_neg ⟨t1, m1, x1, f1, w1, n2⟩ n ht hp hn)]
        constructor <;> simp [outputVals, outputsOf_runCatch]
      · have hg1 := getActionInputs_ok ⟨t1, m1, x1, f1, w1, n1⟩ n ht hp hn
        have hg2 := getActionInputs_ok ⟨t1, m1, x1, f1, w1, n2⟩ n ht hp hn
        rcases f1 with e | repo
        · rw [run_proc_err _ _ _ _ _ hg1 (process_fetch_err _ _ e rfl),
              run_proc_err _ _ _ _ _ hg2 (process_fetch_err _ _ e rfl)]
          constructor <;>
            simp [outputVals, outputsOf_runCatch, classifyCatch_fst_outputs]
        · rcases w1 with e | u
          · rw [run_proc_err _ _ _ _ _ hg1 (process_wait_err _ _ repo e rfl rfl),
                run_proc_err _ _ _ _ _ hg2 (process_wait_err _ _ repo e rfl rfl)]
            constructor <;>
              simp [outputVals, outputsOf_runCatch, classifyCatch_fst_outputs]
          · cases u
            rw [run_success _ _ _ _ _ hg1 (process_ok _ _ repo rfl rfl),
                run_success _ _ _ _ _ hg2 (process_ok _ _ repo rfl rfl)]
            constructor <;>
              simp [outputVals, outputsOf_setActionOutputs, defaultedExample,
                inputExample, jsBoolToString]

/-- Witness for C8: the same configuration and collaborator outcomes at two
different clock readings. -/
theorem C8_result_processed_deterministic_witness :
    outputVals (run ⟨"tok", "500", "x", Except.ok ⟨"owner/repo"⟩,
        Except.ok (), "11:11:11"⟩) "result" =
      outputVals (run ⟨"tok", "500", "x", Except.ok ⟨"owner/repo"⟩,
        Except.ok (), "22:22:22"⟩) "result" ∧
    outputVals (run ⟨"tok", "500", "x", Except.ok ⟨"owner/repo"⟩,
        Except.ok (), "11:11:11"⟩) "processed" =
      outputVals (run ⟨"tok", "500", "x", Except.ok ⟨"owner/repo"⟩,
        Except.ok (), "22:22:22"⟩) "processed" :=
  C8_result_processed_deterministic _ _ rfl rfl rfl rfl rfl
